import Mathlib

/-!
Verification development for the Google-Sheets foreign data wrapper
connector (src/src/lib.rs).  The Rust source is shallowly embedded:
serde_json values become the inductive JsonValue, the JSON-pointer
lookup used by the source is modelled over character lists, the
connector singleton ExampleFdw becomes an explicit state record, and
the lifecycle functions become pure state-passing functions.
-/

/-- Abbreviation for the string type, used inside declarations in the
JsonValue namespace where the bare name would resolve to the string
constructor of JsonValue. -/
abbrev Str := String

/-- Shallow embedding of serde_json Value.  Numbers are modelled as
rationals standing for the IEEE doubles serde stores (every finite
double is a rational), which is exact for the values the claims use. -/
inductive JsonValue where
  | Null
  | Bool (b : Bool)
  | Number (q : ℚ)
  | String (s : String)
  | Array (xs : List JsonValue)
  | Object (fields : List (String × JsonValue))

/-- Lookup of a key in an object field list, modelling serde_json
Map::get (keys are unique in a parsed map). -/
def lookup_key : List (String × JsonValue) → String → Option JsonValue
  | [], _ => none
  | kv :: rest, key => if kv.fst = key then some kv.snd else lookup_key rest key

/-- Splitting a character sequence on the slash character, modelling
Rust str::split with a char pattern.  An empty input yields one empty
token, exactly as in Rust. -/
def splitOnSlash : List Char → List (List Char)
  | [] => [[]]
  | c :: rest =>
    if c = '/' then [] :: splitOnSlash rest
    else
      match splitOnSlash rest with
      | [] => [[c]]
      | t :: ts => (c :: t) :: ts

/-- Left-to-right non-overlapping replacement of the two-character
pattern a b by the single character r, modelling Rust String::replace
for the two-character patterns used by the JSON pointer unescaping. -/
def replace_pair (a b r : Char) : List Char → List Char
  | x :: y :: rest =>
    if x = a ∧ y = b then r :: replace_pair a b r rest
    else x :: replace_pair a b r (y :: rest)
  | l => l

/-- JSON-pointer token unescaping: tilde-one becomes slash, then
tilde-zero becomes tilde, as serde_json does with String::replace. -/
def unescape_token (t : List Char) : List Char :=
  replace_pair '~' '0' '~' (replace_pair '~' '1' '/' t)

/-- Digit accumulation for parsing a natural number, modelling the
digit loop of Rust usize::from_str. -/
def chars_to_nat_core : List Char → Nat → Option Nat
  | [], acc => some acc
  | c :: rest, acc =>
    if c.isDigit then chars_to_nat_core rest (acc * 10 + (c.toNat - 48)) else none

/-- Parsing of a nonempty all-digit character sequence as a natural
number; the empty sequence fails, as in Rust. -/
def chars_to_nat : List Char → Option Nat
  | [] => none
  | c :: rest => chars_to_nat_core (c :: rest) 0

/-- Array-index parsing of a pointer token, modelling serde_json
parse_index: a leading plus sign is rejected, a leading zero is
rejected unless the token is exactly one character, and the value must
fit in usize (32 bits on the wasm32 target the crate builds for). -/
def parse_index (s : List Char) : Option Nat :=
  if s.head? = some '+' then none
  else if s.head? = some '0' ∧ s.length ≠ 1 then none
  else (chars_to_nat s).bind (fun n => if n < 4294967296 then some n else none)

/-- Token-by-token pointer descent, modelling the try_fold inside
serde_json Value::pointer: objects are indexed by key, arrays by a
parsed index, and any other value fails. -/
def ptr_tokens : List (List Char) → JsonValue → Option JsonValue
  | [], j => some j
  | t :: ts, j =>
    match j with
    | JsonValue.Object fields =>
      match lookup_key fields (String.mk t) with
      | some v => ptr_tokens ts v
      | none => none
    | JsonValue.Array xs =>
      match parse_index t with
      | some i =>
        match xs.get? i with
        | some v => ptr_tokens ts v
        | none => none
      | none => none
    | _ => none

/-- Embedding of serde_json Value::pointer over the character list of
the pointer string: the empty pointer returns the value itself, a
pointer not starting with a slash fails, and otherwise the tokens
after the leading slash are unescaped and folded over the value. -/
def JsonValue.pointer (j : JsonValue) (p : List Char) : Option JsonValue :=
  match p with
  | [] => some j
  | c :: rest =>
    if c = '/' then ptr_tokens (((splitOnSlash (c :: rest)).drop 1).map unescape_token) j
    else none

/-- Embedding of serde_json Value::as_f64: only numbers convert. -/
def JsonValue.as_f64 : JsonValue → Option ℚ
  | JsonValue.Number q => some q
  | _ => none

/-- Embedding of serde_json Value::as_str: only strings convert. -/
def JsonValue.as_str : JsonValue → Option Str
  | JsonValue.String s => some s
  | _ => none

/-- Embedding of serde_json Value::as_array: only arrays convert. -/
def JsonValue.as_array : JsonValue → Option (List JsonValue)
  | JsonValue.Array xs => some xs
  | _ => none

/-- Target column type identifiers from the host bindings; the source
only handles I64 and String, every other variant falls to the
unsupported-type arm. -/
inductive TypeOid where
  | Bool
  | I8
  | I16
  | I32
  | I64
  | F32
  | F64
  | Numeric
  | String
  | Date
  | Timestamp
  | Json
  deriving DecidableEq

/-- Target cells the source constructs: 64-bit integers and strings. -/
inductive Cell where
  | I64 (v : Int)
  | String (s : String)
  deriving DecidableEq

/-- Target column metadata supplied by the host: name, 1-based ordinal
number, and declared type. -/
structure Column where
  name : String
  num : Nat
  type_oid : TypeOid
  deriving DecidableEq

/-- Connector singleton state (struct ExampleFdw): the base URL, the
fetched source rows, and the cursor index.  The tokio runtime field
carries no scan-relevant state and is omitted. -/
structure ExampleFdw where
  base_url : String
  src_rows : List JsonValue
  src_idx : Nat

/-- Truncation of a rational toward zero, the rounding Rust float to
integer casts perform. -/
def rat_trunc (q : ℚ) : Int := q.num.tdiv (q.den : Int)

/-- Embedding of the Rust cast from f64 to i64: truncation toward
zero, saturating at the i64 bounds. -/
def f64_as_i64 (q : ℚ) : Int :=
  max (-(9223372036854775808 : Int)) (min (9223372036854775807 : Int) (rat_trunc q))

/-- Character list of the JSON pointer the cell lookup formats, for a
0-based source column index k: slash c slash, the decimal digits of k,
slash v. -/
def cell_path (k : Nat) : List Char :=
  ['/', 'c', '/'] ++ Nat.toDigits 10 k ++ ['/', 'v']

/-- The per-row column loop of iter_scan: walks the target columns in
order, pushing one optional cell per column onto the host row, and
stops with the unsupported-type error message when a present source
value meets a column type other than I64 or String.  Returns the row
contents after the loop together with the error, if any. -/
def scan_columns (src_row : JsonValue) (cols : List Column) (row : List (Option Cell)) :
    List (Option Cell) × Option String :=
  match cols with
  | [] => (row, none)
  | tgt_col :: rest =>
    match src_row.pointer (cell_path (tgt_col.num - 1)) with
    | some src =>
      match tgt_col.type_oid with
      | TypeOid.I64 =>
        scan_columns src_row rest (row ++ [(src.as_f64).map (fun v => Cell.I64 (f64_as_i64 v))])
      | TypeOid.String =>
        scan_columns src_row rest (row ++ [(src.as_str).map (fun v => Cell.String v)])
      | _ => (row, some ("column " ++ tgt_col.name ++ " data type is not supported"))
    | none => scan_columns src_row rest (row ++ [none])

/-- Embedding of iter_scan: when the cursor has consumed every source
row it returns Ok none and leaves everything untouched; otherwise the
current source row is mapped over the target columns, and on success
the cursor advances by one and Ok (some 0) is returned, while a column
error is returned without advancing the cursor. -/
def iter_scan (cols : List Column) (this : ExampleFdw) (row : List (Option Cell)) :
    Except String (Option Nat) × ExampleFdw × List (Option Cell) :=
  if this.src_idx ≥ this.src_rows.length then (Except.ok none, this, row)
  else
    match scan_columns (this.src_rows.getD this.src_idx JsonValue.Null) cols row with
    | (row2, none) =>
      (Except.ok (some 0), { this with src_idx := this.src_idx + 1 }, row2)
    | (row2, some e) => (Except.error e, this, row2)

/-- State effect of a successful begin_scan: the fetched rows are
assigned to src_rows; no other field is written (in particular the
cursor index is not reset by begin_scan). -/
def begin_scan_update (st : ExampleFdw) (rows : List JsonValue) : ExampleFdw :=
  { st with src_rows := rows }

/-- State effect of end_scan: src_rows is cleared; the cursor index is
left unchanged. -/
def end_scan_update (st : ExampleFdw) : ExampleFdw :=
  { st with src_rows := [] }

/-- State built by init_instance: empty base URL, no rows, cursor 0. -/
def init_instance : ExampleFdw :=
  { base_url := "", src_rows := [], src_idx := 0 }

/-- Embedding of init: the instance is re-initialised and the base URL
option is read with the documented default. -/
def fdw_init (base_url_opt : Option String) : ExampleFdw :=
  { init_instance with
      base_url := base_url_opt.getD "https://docs.google.com/spreadsheets/d" }

/-- Request URL construction in begin_scan: the effective URL is the
one computed by the match on the optional sheet id (the earlier
binding in the source is immediately shadowed by this match). -/
def build_url (base_url spread_sheet_id : String) (sheet_id : Option String) : String :=
  match sheet_id with
  | some sid =>
    base_url ++ "/" ++ spread_sheet_id ++ "/gviz/tq?gid=" ++ sid ++ "&tqx=out:json"
  | none => base_url ++ "/" ++ spread_sheet_id ++ "/gviz/tq?tqx=out:json"

/-- The anti-hijacking sentinel the response must start with: right
parenthesis, right square bracket, right curly bracket, apostrophe,
newline (five characters, given by code point to keep the file plain
ASCII). -/
def sentinel : List Char :=
  [Char.ofNat 41, Char.ofNat 93, Char.ofNat 125, Char.ofNat 39, Char.ofNat 10]

/-- Embedding of the strip_prefix call on the response body: the
remainder after the sentinel when the body starts with it, and
failure otherwise. -/
def strip_sentinel (body : List Char) : Option (List Char) :=
  if sentinel.isPrefixOf body then some (body.drop sentinel.length) else none

/-- Outcome of the row-extraction stage of begin_scan: the row list on
success, an error message carried into the FdwResult, or a Rust panic
(the unwrap on as_array). -/
inductive RowsResult where
  | ok (rows : List JsonValue)
  | err (msg : String)
  | panic

/-- Character list of the fixed pointer path to the row array. -/
def tableRowsPath : List Char := "/table/rows".data

/-- Embedding of the row extraction in begin_scan: the pointer to
table rows is taken; a missing path is the error string of the source,
and a present value is force-converted with as_array followed by
unwrap, which panics on a non-array. -/
def extract_rows (resp_json : JsonValue) : RowsResult :=
  match resp_json.pointer tableRowsPath with
  | none => RowsResult.err "cannot get rows from response"
  | some v =>
    match v.as_array with
    | some xs => RowsResult.ok xs
    | none => RowsResult.panic

/-- The stage of the begin_scan parse pipeline after the sentinel has
been stripped: JSON decoding followed by row extraction.  The decoder
for the JSON grammar is a parameter (serde_json from_str is not
re-implemented); its error strings are surfaced unchanged. -/
def decode_and_extract (decode : List Char → Except String JsonValue)
    (stripped : List Char) : RowsResult :=
  match decode stripped with
  | Except.error e => RowsResult.err e
  | Except.ok j => extract_rows j

/-- The parse pipeline of begin_scan on a response body: sentinel
stripping with the fixed error string on failure, then decoding and
row extraction. -/
def parse_response (decode : List Char → Except String JsonValue)
    (body : List Char) : RowsResult :=
  match strip_sentinel body with
  | none => RowsResult.err "invalid response"
  | some stripped => decode_and_extract decode stripped

/-- The cell iter_scan produces for one column from one source row, as
a standalone function: the pointed-to value coerced by the declared
column type, absent when the pointer does not resolve or the coercion
fails. -/
def cell_for (src_row : JsonValue) (col : Column) : Option Cell :=
  match src_row.pointer (cell_path (col.num - 1)) with
  | none => none
  | some src =>
    match col.type_oid with
    | TypeOid.I64 => (src.as_f64).map (fun v => Cell.I64 (f64_as_i64 v))
    | TypeOid.String => (src.as_str).map (fun v => Cell.String v)
    | _ => none

/-- A column list the connector can convert: every declared type is
I64 or String. -/
def well_typed (cols : List Column) : Prop :=
  ∀ c ∈ cols, c.type_oid = TypeOid.I64 ∨ c.type_oid = TypeOid.String

instance well_typed_decidable (cols : List Column) : Decidable (well_typed cols) :=
  List.decidableBAll _ cols

/-- Connector state after k iterate calls (each with a fresh host
row), starting from st. -/
def iterate_state (cols : List Column) (st : ExampleFdw) : Nat → ExampleFdw
  | 0 => st
  | Nat.succ k => (iter_scan cols (iterate_state cols st k) []).2.1

/-! Helper lemmas shared by the claim theorems. -/

/-- A list is a Boolean prefix of itself followed by anything. -/
theorem isPrefixOf_append (l t : List Char) : l.isPrefixOf (l ++ t) = true := by
  induction l with
  | nil => simp [List.isPrefixOf]
  | cons c cs ih => simp [List.isPrefixOf, ih]

/-- On a well-typed column list the column loop never errors and pushes
exactly the cell cell_for computes for each column, in order. -/
theorem scan_columns_well_typed (src_row : JsonValue) :
    ∀ (cols : List Column) (row : List (Option Cell)), well_typed cols →
    scan_columns src_row cols row = (row ++ cols.map (cell_for src_row), none) := by
  intro cols
  induction cols with
  | nil => intro row _; simp [scan_columns]
  | cons col rest ih =>
    intro row h
    have hcol := h col (List.mem_cons_self col rest)
    have hrest : well_typed rest := fun c hc => h c (List.mem_cons_of_mem col hc)
    cases hp : JsonValue.pointer src_row (cell_path (col.num - 1)) with
    | none =>
      simp [scan_columns, hp, cell_for, ih (row ++ [none]) hrest]
    | some src =>
      rcases hcol with hI | hS
      · simp [scan_columns, hp, cell_for, hI, ih _ hrest]
      · simp [scan_columns, hp, cell_for, hS, ih _ hrest]

/-- The column loop only appends to the host row, whatever the columns
and the source row are. -/
theorem scan_columns_extends (src_row : JsonValue) :
    ∀ (cols : List Column) (row : List (Option Cell)),
    ∃ t, (scan_columns src_row cols row).1 = row ++ t := by
  intro cols
  induction cols with
  | nil => intro row; exact ⟨[], by simp [scan_columns]⟩
  | cons col rest ih =>
    intro row
    cases hp : JsonValue.pointer src_row (cell_path (col.num - 1)) with
    | none =>
      obtain ⟨t, ht⟩ := ih (row ++ [none])
      refine ⟨none :: t, ?_⟩
      simp only [scan_columns, hp]
      rw [ht]
      simp
    | some src =>
      cases hoid : col.type_oid
      case I64 =>
        obtain ⟨t, ht⟩ := ih (row ++ [(src.as_f64).map (fun v => Cell.I64 (f64_as_i64 v))])
        refine ⟨(src.as_f64).map (fun v => Cell.I64 (f64_as_i64 v)) :: t, ?_⟩
        simp only [scan_columns, hp, hoid]
        rw [ht]
        simp
      case String =>
        obtain ⟨t, ht⟩ := ih (row ++ [(src.as_str).map (fun v => Cell.String v)])
        refine ⟨(src.as_str).map (fun v => Cell.String v) :: t, ?_⟩
        simp only [scan_columns, hp, hoid]
        rw [ht]
        simp
      all_goals exact ⟨[], by simp [scan_columns, hp, hoid]⟩

/-- On a well-typed column list, iter_scan on a non-exhausted cursor
produces a row, advances the cursor by one and pushes one cell per
column. -/
theorem iter_scan_success (cols : List Column) (st : ExampleFdw) (row : List (Option Cell))
    (hw : well_typed cols) (hlt : st.src_idx < st.src_rows.length) :
    iter_scan cols st row =
      (Except.ok (some 0), { st with src_idx := st.src_idx + 1 },
        row ++ cols.map (cell_for (st.src_rows.getD st.src_idx JsonValue.Null))) := by
  have h := scan_columns_well_typed (st.src_rows.getD st.src_idx JsonValue.Null) cols row hw
  unfold iter_scan
  rw [if_neg (by omega), h]

/-- Iterating k times from a fresh cursor leaves the row set unchanged
and puts the cursor at k, for k up to the row count. -/
theorem iterate_state_spec (cols : List Column) (st : ExampleFdw)
    (hw : well_typed cols) (h0 : st.src_idx = 0) :
    ∀ k, k ≤ st.src_rows.length →
      (iterate_state cols st k).src_idx = k ∧
      (iterate_state cols st k).src_rows = st.src_rows := by
  intro k
  induction k with
  | zero => intro _; exact ⟨h0, rfl⟩
  | succ k ih =>
    intro hk
    obtain ⟨hidx, hrows⟩ := ih (Nat.le_of_succ_le hk)
    have hlt : (iterate_state cols st k).src_idx < (iterate_state cols st k).src_rows.length := by
      rw [hidx, hrows]; omega
    have hs := iter_scan_success cols (iterate_state cols st k) [] hw hlt
    constructor
    · show (iter_scan cols (iterate_state cols st k) []).2.1.src_idx = k + 1
      rw [hs]
      simp [hidx]
    · show (iter_scan cols (iterate_state cols st k) []).2.1.src_rows = st.src_rows
      rw [hs]
      simp [hrows]

/-- C5: for a well-typed column list and a cursor starting at 0 over N
fetched rows, each of the first N iter_scan calls reports a produced
row (Ok some 0) with the cursor at k beforehand, and the call after
the N-th returns the no-more-rows signal (Ok none) while leaving the
connector state and the host row exactly unchanged. -/
theorem c5_scan_production (cols : List Column) (st : ExampleFdw)
    (hw : well_typed cols) (h0 : st.src_idx = 0) :
    (∀ k, k < st.src_rows.length →
      (iterate_state cols st k).src_idx = k ∧
      (iter_scan cols (iterate_state cols st k) []).1 = Except.ok (some 0)) ∧
    (∀ row, iter_scan cols (iterate_state cols st st.src_rows.length) row =
      (Except.ok none, iterate_state cols st st.src_rows.length, row)) := by
  constructor
  · intro k hk
    obtain ⟨hidx, hrows⟩ := iterate_state_spec cols st hw h0 k (Nat.le_of_lt hk)
    have hlt : (iterate_state cols st k).src_idx <
        (iterate_state cols st k).src_rows.length := by
      rw [hidx, hrows]; omega
    refine ⟨hidx, ?_⟩
    rw [iter_scan_success cols _ [] hw hlt]
  · intro row
    obtain ⟨hidx, hrows⟩ :=
      iterate_state_spec cols st hw h0 st.src_rows.length (Nat.le_refl _)
    have hge : (iterate_state cols st st.src_rows.length).src_idx ≥
        (iterate_state cols st st.src_rows.length).src_rows.length := by
      rw [hidx, hrows]
    unfold iter_scan
    rw [if_pos hge]

/-- C5 witness: a two-row scan with one integer column: after two
iterate calls the third returns Ok none and changes nothing. -/
theorem c5_witness :
    iter_scan [Column.mk "a" 1 TypeOid.I64]
      (iterate_state [Column.mk "a" 1 TypeOid.I64]
        (ExampleFdw.mk "" [JsonValue.Null, JsonValue.Null] 0) 2) [] =
    (Except.ok none,
      iterate_state [Column.mk "a" 1 TypeOid.I64]
        (ExampleFdw.mk "" [JsonValue.Null, JsonValue.Null] 0) 2, []) :=
  (c5_scan_production [Column.mk "a" 1 TypeOid.I64]
    (ExampleFdw.mk "" [JsonValue.Null, JsonValue.Null] 0) (by decide) rfl).2 []

/-- C7: on a well-typed column list the column loop never errors, the
assembled host row gains exactly one cell slot per target column in
ordinal order, and a column whose source pointer does not resolve or
resolves to null gets an absent cell. -/
theorem c7_absent_cells (cols : List Column) (src_row : JsonValue)
    (row : List (Option Cell)) (hw : well_typed cols) :
    scan_columns src_row cols row = (row ++ cols.map (cell_for src_row), none) ∧
    (row ++ cols.map (cell_for src_row)).length = row.length + cols.length ∧
    (∀ c ∈ cols,
      (JsonValue.pointer src_row (cell_path (c.num - 1)) = none ∨
       JsonValue.pointer src_row (cell_path (c.num - 1)) = some JsonValue.Null) →
      cell_for src_row c = none) := by
  refine ⟨scan_columns_well_typed src_row cols row hw, by simp, ?_⟩
  intro c hc habs
  rcases habs with h | h
  · simp [cell_for, h]
  · rcases hw c hc with hI | hS
    · simp [cell_for, h, hI, JsonValue.as_f64]
    · simp [cell_for, h, hS, JsonValue.as_str]

/-- Source row used by the C7 witness: one cell, shorter than the
second and third requested ordinals. -/
def srcC7 : JsonValue :=
  JsonValue.Object [("c", JsonValue.Array [JsonValue.Object [("v", JsonValue.Number 7)]])]

/-- C7 witness: a three-column projection over a one-cell source row
yields a present first cell and absent second and third cells, with no
error. -/
theorem c7_witness :
    scan_columns srcC7
      [Column.mk "a" 1 TypeOid.I64, Column.mk "b" 2 TypeOid.String,
        Column.mk "d" 3 TypeOid.I64] [] =
      ([some (Cell.I64 7), none, none], none) :=
  ((c7_absent_cells
      [Column.mk "a" 1 TypeOid.I64, Column.mk "b" 2 TypeOid.String,
        Column.mk "d" 3 TypeOid.I64] srcC7 [] (by decide)).1).trans rfl

/-- C9: a present numeric source cell under an integer column becomes
the truncation of the number, and a present string cell under a string
column becomes the identical string. -/
theorem c9_roundtrip (col : Column) (src_row : JsonValue) (row : List (Option Cell)) :
    (∀ q : ℚ, col.type_oid = TypeOid.I64 →
      JsonValue.pointer src_row (cell_path (col.num - 1)) = some (JsonValue.Number q) →
      scan_columns src_row [col] row = (row ++ [some (Cell.I64 (f64_as_i64 q))], none)) ∧
    (∀ s : String, col.type_oid = TypeOid.String →
      JsonValue.pointer src_row (cell_path (col.num - 1)) = some (JsonValue.String s) →
      scan_columns src_row [col] row = (row ++ [some (Cell.String s)], none)) := by
  constructor
  · intro q hI hp
    simp [scan_columns, hp, hI, JsonValue.as_f64]
  · intro s hS hp
    simp [scan_columns, hp, hS, JsonValue.as_str]

/-- Source row used by the C9 witness, the example row documented in
the source: a numeric cell 1.0 with formatted text, then a string
cell. -/
def srcC9 : JsonValue :=
  JsonValue.Object [("c", JsonValue.Array
    [JsonValue.Object [("v", JsonValue.Number 1), ("f", JsonValue.String "1")],
     JsonValue.Object [("v", JsonValue.String "Erlich Bachman")]])]

/-- C9 witness: the documented example row maps 1.0 to integer 1 and
the string cell to the identical string. -/
theorem c9_witness :
    scan_columns srcC9 [Column.mk "id" 1 TypeOid.I64] [] = ([some (Cell.I64 1)], none) ∧
    scan_columns srcC9 [Column.mk "name" 2 TypeOid.String] [] =
      ([some (Cell.String "Erlich Bachman")], none) :=
  ⟨((c9_roundtrip (Column.mk "id" 1 TypeOid.I64) srcC9 []).1 1 rfl rfl).trans rfl,
   ((c9_roundtrip (Column.mk "name" 2 TypeOid.String) srcC9 []).2
     "Erlich Bachman" rfl rfl).trans rfl⟩

/-- C10: iter_scan advances the cursor by exactly one exactly when it
reports a produced row; in every other outcome the whole connector
state is unchanged; the fetched row set is never altered; and the host
row is only ever extended, so cells pushed before a failure remain. -/
theorem c10_cursor_advance (cols : List Column) (st : ExampleFdw)
    (row : List (Option Cell)) :
    ((iter_scan cols st row).1 = Except.ok (some 0) ↔
      (iter_scan cols st row).2.1.src_idx = st.src_idx + 1) ∧
    ((iter_scan cols st row).1 = Except.ok (some 0) ∨ (iter_scan cols st row).2.1 = st) ∧
    (iter_scan cols st row).2.1.src_rows = st.src_rows ∧
    (∃ t, (iter_scan cols st row).2.2 = row ++ t) := by
  by_cases hge : st.src_idx ≥ st.src_rows.length
  · unfold iter_scan
    rw [if_pos hge]
    refine ⟨?_, Or.inr rfl, rfl, ⟨[], by simp⟩⟩
    constructor
    · intro h
      exact absurd (Except.ok.inj h) (by simp)
    · intro h
      simp at h
  · obtain ⟨t, ht⟩ := scan_columns_extends (st.src_rows.getD st.src_idx JsonValue.Null) cols row
    rcases hsc : scan_columns (st.src_rows.getD st.src_idx JsonValue.Null) cols row with ⟨row2, e⟩
    rw [hsc] at ht
    cases e with
    | none =>
      unfold iter_scan
      rw [if_neg hge, hsc]
      exact ⟨⟨fun _ => rfl, fun _ => rfl⟩, Or.inl rfl, rfl, ⟨t, ht⟩⟩
    | some msg =>
      unfold iter_scan
      rw [if_neg hge, hsc]
      refine ⟨?_, Or.inr rfl, rfl, ⟨t, ht⟩⟩
      constructor
      · intro h
        exact Except.noConfusion h
      · intro h
        simp at h

/-- Row extraction never produces the sentinel-missing error string,
whatever the decoded value is. -/
theorem extract_rows_ne_invalid (j : JsonValue) :
    extract_rows j ≠ RowsResult.err "invalid response" := by
  intro h
  rcases heq : JsonValue.pointer j tableRowsPath with _ | v
  · simp only [extract_rows, heq] at h
    exact absurd (RowsResult.err.inj h) (by decide)
  · rcases ha : v.as_array with _ | xs
    · simp only [extract_rows, heq, ha] at h
      exact RowsResult.noConfusion h
    · simp only [extract_rows, heq, ha] at h
      exact RowsResult.noConfusion h

/-- The stage after sentinel stripping never produces the
sentinel-missing error string when the decoder never does. -/
theorem decode_and_extract_ne_invalid (decode : List Char → Except String JsonValue)
    (hd : ∀ b, decode b ≠ Except.error "invalid response") (s : List Char) :
    decode_and_extract decode s ≠ RowsResult.err "invalid response" := by
  intro h
  rcases hds : decode s with e | j
  · simp only [decode_and_extract, hds] at h
    have he : e = "invalid response" := RowsResult.err.inj h
    exact hd s (by rw [hds, he])
  · simp only [decode_and_extract, hds] at h
    exact extract_rows_ne_invalid j h

/-- C6: for any decoder whose error messages differ from the fixed
prefix error (true of serde_json, whose messages carry position
information), the parse pipeline fails with the prefix error exactly
when the body does not start with the sentinel, and a body that does
start with it is processed with exactly the sentinel stripped. -/
theorem c6_sentinel_stripping (decode : List Char → Except String JsonValue)
    (hd : ∀ b, decode b ≠ Except.error "invalid response") (body : List Char) :
    ((parse_response decode body = RowsResult.err "invalid response") ↔
      sentinel.isPrefixOf body = false) ∧
    (∀ rest, parse_response decode (sentinel ++ rest) = decode_and_extract decode rest) := by
  constructor
  · cases hpre : sentinel.isPrefixOf body with
    | false =>
      simp [parse_response, strip_sentinel, hpre]
    | true =>
      simp only [parse_response, strip_sentinel, hpre, if_true]
      constructor
      · intro h
        exact absurd h (decode_and_extract_ne_invalid decode hd _)
      · intro h
        exact Bool.noConfusion h
  · intro rest
    have hpre : sentinel.isPrefixOf (sentinel ++ rest) = true := isPrefixOf_append sentinel rest
    simp [parse_response, strip_sentinel, hpre, List.drop_left]

/-- Decoder used by the C6 witness: every body decodes to null. -/
def decodeW : List Char → Except String JsonValue := fun _ => Except.ok JsonValue.Null

/-- C6 witness: the empty body does not start with the sentinel, so
the pipeline fails with the fixed prefix error. -/
theorem c6_witness : parse_response decodeW [] = RowsResult.err "invalid response" :=
  (c6_sentinel_stripping decodeW (fun _ h => Except.noConfusion h) []).1.mpr rfl

/-- Decoded response used by the C3 counterexample: the path to table
rows resolves, but to a number rather than an array. -/
def badC3 : JsonValue :=
  JsonValue.Object [("table", JsonValue.Object [("rows", JsonValue.Number 1)])]

/-- C3 counterexample: when the fixed path resolves to a non-array the
extraction does not return the missing-rows error: it panics (the
unwrap on as_array), refuting the claim that an Err result covers the
non-array case. -/
theorem c3_counterexample :
    extract_rows badC3 = RowsResult.panic ∧
    JsonValue.pointer badC3 tableRowsPath = some (JsonValue.Number 1) ∧
    RowsResult.panic ≠ RowsResult.err "cannot get rows from response" :=
  ⟨rfl, rfl, fun h => RowsResult.noConfusion h⟩

/-- C3 amended: the extraction returns the missing-rows error exactly
when the fixed path does not resolve; a path resolving to an array
returns those rows; a path resolving to a non-array makes the source
panic on unwrap instead of returning an Err. -/
theorem c3_rows_extraction (j : JsonValue) :
    (JsonValue.pointer j tableRowsPath = none →
      extract_rows j = RowsResult.err "cannot get rows from response") ∧
    (∀ xs, JsonValue.pointer j tableRowsPath = some (JsonValue.Array xs) →
      extract_rows j = RowsResult.ok xs) ∧
    (∀ v, JsonValue.pointer j tableRowsPath = some v → v.as_array = none →
      extract_rows j = RowsResult.panic) := by
  refine ⟨?_, ?_, ?_⟩
  · intro h
    simp [extract_rows, h]
  · intro xs h
    simp [extract_rows, h, JsonValue.as_array]
  · intro v h ha
    simp [extract_rows, h, ha]

/-- C3 witness: a response whose table rows path holds an array of one
null row extracts exactly that array. -/
theorem c3_witness :
    extract_rows (JsonValue.Object
      [("table", JsonValue.Object [("rows", JsonValue.Array [JsonValue.Null])])]) =
      RowsResult.ok [JsonValue.Null] :=
  (c3_rows_extraction _).2.1 [JsonValue.Null] rfl

/-- C4 counterexample: with a sheet id the code does not append the
gid parameter after the fixed query parameter; the claimed URL shape
differs from the built one. -/
theorem c4_counterexample :
    build_url "https://docs.google.com/spreadsheets/d" "abc123" (some "0") ≠
      "https://docs.google.com/spreadsheets/d/abc123/gviz/tq?tqx=out:json" ++ "&gid=0" := by
  decide

/-- C4 amended: without a sheet id the URL is exactly the claimed one;
with sheet id 0 the gid parameter is inserted before the fixed query
parameter, not appended after it. -/
theorem c4_url_construction :
    build_url "https://docs.google.com/spreadsheets/d" "abc123" none =
      "https://docs.google.com/spreadsheets/d/abc123/gviz/tq?tqx=out:json" ∧
    build_url "https://docs.google.com/spreadsheets/d" "abc123" (some "0") =
      "https://docs.google.com/spreadsheets/d/abc123/gviz/tq?gid=0&tqx=out:json" :=
  ⟨rfl, rfl⟩

/-- Source row used by the C1 counterexample and witness: the cell at
the first position is present but holds a string, not a number. -/
def srcC1 : JsonValue :=
  JsonValue.Object [("c", JsonValue.Array [JsonValue.Object [("v", JsonValue.String "hello")]])]

/-- C1 counterexample: an integer column over a present non-numeric
cell does not make iter_scan error: the call reports a produced row
and pushes an absent cell, refuting the hard-error claim. -/
theorem c1_counterexample :
    (iter_scan [Column.mk "n" 1 TypeOid.I64] (ExampleFdw.mk "" [srcC1] 0) []).1 =
      Except.ok (some 0) ∧
    (iter_scan [Column.mk "n" 1 TypeOid.I64] (ExampleFdw.mk "" [srcC1] 0) []).2.2 = [none] ∧
    JsonValue.pointer srcC1 (cell_path 0) = some (JsonValue.String "hello") ∧
    (JsonValue.String "hello").as_f64 = none :=
  ⟨rfl, rfl, rfl, rfl⟩

/-- C1 amended: a source value that is present but cannot be coerced
to the declared column type (non-numeric under an integer column,
non-string under a string column) yields an absent target cell with no
error, exactly like a missing array element; a non-exhausted iter_scan
over such a single-column row reports a produced row. -/
theorem c1_present_uncoercible_absent (col : Column) (src_row : JsonValue)
    (row : List (Option Cell)) (j : JsonValue)
    (hp : JsonValue.pointer src_row (cell_path (col.num - 1)) = some j)
    (hmis : (col.type_oid = TypeOid.I64 ∧ j.as_f64 = none) ∨
            (col.type_oid = TypeOid.String ∧ j.as_str = none)) :
    scan_columns src_row [col] row = (row ++ [none], none) ∧
    (∀ st : ExampleFdw, st.src_idx < st.src_rows.length →
      st.src_rows.getD st.src_idx JsonValue.Null = src_row →
      (iter_scan [col] st row).1 = Except.ok (some 0) ∧
      (iter_scan [col] st row).2.2 = row ++ [none]) := by
  have hsc : scan_columns src_row [col] row = (row ++ [none], none) := by
    rcases hmis with ⟨hI, hf⟩ | ⟨hS, hf⟩
    · simp [scan_columns, hp, hI, hf]
    · simp [scan_columns, hp, hS, hf]
  refine ⟨hsc, ?_⟩
  intro st hlt hrow
  unfold iter_scan
  rw [if_neg (by omega), hrow, hsc]
  exact ⟨rfl, rfl⟩

/-- C1 witness: the present string cell under the integer column
yields an absent cell with no error. -/
theorem c1_witness :
    scan_columns srcC1 [Column.mk "n" 1 TypeOid.I64] [] = ([none], none) :=
  (c1_present_uncoercible_absent (Column.mk "n" 1 TypeOid.I64) srcC1 []
    (JsonValue.String "hello") rfl (Or.inl ⟨rfl, rfl⟩)).1

/-- Source row used by the C2 counterexample. -/
def rowC2 : JsonValue := JsonValue.Object [("c", JsonValue.Array [])]

/-- C2 counterexample: after a completed one-row scan, end_scan, and a
begin_scan fetching one fresh row, the cursor index is not 0 and the
first iterate of the new scan returns the no-more-rows signal instead
of the fetched row, refuting the reset claim. -/
theorem c2_counterexample :
    (begin_scan_update (end_scan_update
        (iter_scan [] (ExampleFdw.mk "u" [rowC2] 0) []).2.1) [rowC2]).src_idx ≠ 0 ∧
    (iter_scan [] (begin_scan_update (end_scan_update
        (iter_scan [] (ExampleFdw.mk "u" [rowC2] 0) []).2.1) [rowC2]) []).1 =
      Except.ok none :=
  ⟨by decide, rfl⟩

/-- C2 amended: begin_scan replaces the fetched rows but leaves the
cursor index unchanged (the index is 0 only because init sets it so),
end_scan likewise leaves the index unchanged, and within a scan
iter_scan never decreases the index, so the cursor is monotonically
non-decreasing and is reset only by init, not by beginning a new
scan. -/
theorem c2_cursor_not_reset (st : ExampleFdw) (rows : List JsonValue)
    (cols : List Column) (row : List (Option Cell)) (b : Option String) :
    (begin_scan_update st rows).src_idx = st.src_idx ∧
    (begin_scan_update st rows).src_rows = rows ∧
    (end_scan_update st).src_idx = st.src_idx ∧
    st.src_idx ≤ (iter_scan cols st row).2.1.src_idx ∧
    (fdw_init b).src_idx = 0 := by
  refine ⟨rfl, rfl, rfl, ?_, rfl⟩
  by_cases hge : st.src_idx ≥ st.src_rows.length
  · unfold iter_scan
    rw [if_pos hge]
  · rcases hsc : scan_columns (st.src_rows.getD st.src_idx JsonValue.Null) cols row with ⟨row2, e⟩
    unfold iter_scan
    rw [if_neg hge, hsc]
    cases e with
    | none => simp
    | some msg => simp

/-- Source row used by the C8 counterexample: the cell at the first
position is missing entirely. -/
def srcC8 : JsonValue := JsonValue.Object [("c", JsonValue.Array [])]

/-- C8 counterexample: a scan whose only column has an unsupported
type over a one-row set whose row lacks a present cell at that
position succeeds on its first row instead of failing, refuting the
claim that every such scan with at least one row errors on the first
row. -/
theorem c8_counterexample :
    (iter_scan [Column.mk "x" 1 TypeOid.Bool] (ExampleFdw.mk "" [srcC8] 0) []).1 =
      Except.ok (some 0) ∧
    (iter_scan [Column.mk "x" 1 TypeOid.Bool] (ExampleFdw.mk "" [srcC8] 0) []).2.2 = [none] ∧
    TypeOid.Bool ≠ TypeOid.I64 ∧ TypeOid.Bool ≠ TypeOid.String :=
  ⟨rfl, rfl, by decide, by decide⟩

/-- C8 amended: the unsupported-column-type error is raised only at
iteration time and only on a row whose source cell at the column's
position is present; a row without a present cell there yields an
absent cell and succeeds. -/
theorem c8_unsupported_type_first_present (col : Column) (st : ExampleFdw)
    (row : List (Option Cell))
    (hI : col.type_oid ≠ TypeOid.I64) (hS : col.type_oid ≠ TypeOid.String)
    (hlt : st.src_idx < st.src_rows.length) :
    (∀ j, JsonValue.pointer (st.src_rows.getD st.src_idx JsonValue.Null)
        (cell_path (col.num - 1)) = some j →
      (iter_scan [col] st row).1 =
        Except.error ("column " ++ col.name ++ " data type is not supported")) ∧
    (JsonValue.pointer (st.src_rows.getD st.src_idx JsonValue.Null)
        (cell_path (col.num - 1)) = none →
      (iter_scan [col] st row).1 = Except.ok (some 0) ∧
      (iter_scan [col] st row).2.2 = row ++ [none]) := by
  constructor
  · intro j hp
    have hsc : scan_columns (st.src_rows.getD st.src_idx JsonValue.Null) [col] row =
        (row, some ("column " ++ col.name ++ " data type is not supported")) := by
      cases hoid : col.type_oid
      all_goals first
        | exact absurd hoid hI
        | exact absurd hoid hS
        | simp only [scan_columns, hp, hoid]
    unfold iter_scan
    rw [if_neg (by omega), hsc]
  · intro hp
    have hsc : scan_columns (st.src_rows.getD st.src_idx JsonValue.Null) [col] row =
        (row ++ [none], none) := by
      simp only [scan_columns, hp]
    unfold iter_scan
    rw [if_neg (by omega), hsc]
    exact ⟨rfl, rfl⟩

/-- Source row used by the C8 witness: the cell at the first position
is present. -/
def srcC8W : JsonValue :=
  JsonValue.Object [("c", JsonValue.Array [JsonValue.Object [("v", JsonValue.Number 3)]])]

/-- C8 witness: a boolean-typed column over a present cell makes the
first iterate fail with the unsupported-type error naming the
column. -/
theorem c8_witness :
    (iter_scan [Column.mk "flag" 1 TypeOid.Bool] (ExampleFdw.mk "" [srcC8W] 0) []).1 =
      Except.error "column flag data type is not supported" :=
  (c8_unsupported_type_first_present (Column.mk "flag" 1 TypeOid.Bool)
      (ExampleFdw.mk "" [srcC8W] 0) [] (by decide) (by decide) (by decide)).1
    (JsonValue.Number 3) rfl
